import Mathlib

/-!
Shallow embedding of the task-bridge core of BlenderGeminiAgent:
the engine tick (`process_queue` in src/BlenderGeminiAgent/engine.py,
duplicated in src/BlenderGeminiAgent/__init__.py), the HTTP listener
(`AgentRequestHandler.do_POST` in src/BlenderGeminiAgent/server.py) and
the start/stop lifecycle (server.py `start_server`/`stop_server` together
with operators.py `OBJECT_OT_StartServer.execute`/`OBJECT_OT_StopServer.execute`).

Python library facilities are modelled explicitly:
  * `exec` of caller-supplied source is an oracle `CodeEnv.exec` mapping
    source text and host state to captured stdout/stderr text, the new
    host state and an optional raised exception; a raised exception
    carries whether its type derives from `Exception` (so that
    `except Exception` catches it) or is a bare `BaseException` such as
    `SystemExit` from `sys.exit()`, which `except Exception` does not
    catch and which therefore escapes `process_queue`;
  * `traceback.format_exc()` is `formatExc`, a string that starts with the
    standard traceback header and ends with the exception's type name,
    a colon, and its message;
  * `queue.Queue` is `PyQueue`: a `maxsize` (0 = unbounded, which is what
    both `queue.Queue()` call sites create) and a FIFO list of items;
    `put` blocks exactly when the queue is bounded and full;
  * the Blender render pipeline of the `view` branch is driven by a
    `ViewEnv` describing the scene (camera present?, stale output file
    present?, which engine identifiers exist, what the render call does),
    and the branch records every pipeline step it performs in a
    `RenderAction` trace.
-/

namespace BlenderGeminiAgent

/-- A raised Python exception, as far as the bridge observes it:
its type name (e.g. "ValueError"), its message (`str(e)`), the frame
lines that `traceback.format_exc` prints between the header and the
final "Type: message" line, and whether the type derives from
`Exception` — `fromExceptionClass = false` models a `BaseException`
outside the `Exception` subtree, such as `SystemExit` (raised by
`sys.exit()`) or `KeyboardInterrupt`, which an `except Exception`
clause does not catch. -/
structure PyExn where
  typeName : String
  msg : String
  traceLines : String
  fromExceptionClass : Bool
  deriving Repr, DecidableEq

/-- `traceback.format_exc()` for a caught exception: the header line,
the frame lines, then `TypeName: message`. -/
def formatExc (e : PyExn) : String :=
  "Traceback (most recent call last):\n" ++ e.traceLines
    ++ e.typeName ++ ": " ++ e.msg ++ "\n"

/-- `s` contains `sub` as a contiguous substring. -/
def ContainsStr (s sub : String) : Prop :=
  ∃ pre post : String, s = pre ++ sub ++ post

/-- A Result dict put on a task's response queue / sent as a JSON body:
`{"status":"success","output":...}`, `{"status":"success","image_base64":...}`
or `{"status":"error","message":...}`. -/
inductive Result where
  | success (output : String)
  | image (image_base64 : String)
  | error (message : String)
  deriving Repr, DecidableEq

/-- The `status` field of a Result dict. -/
def Result.statusStr : Result → String
  | .success _ => "success"
  | .image _ => "success"
  | .error _ => "error"

/-- Host (Blender) global state as the bridge observes it: the ordered
trace of side-effect markers that executed code has appended. -/
abbrev HostState := List String

/-- What one call of Python `exec(content, exec_globals)` does, as the
engine observes it: text written to the (redirected) stdout and stderr
streams, the host state after the call (updated even when the call
raises — partial side effects are not rolled back), and the raised
exception if the call did not complete.  `raised` covers every raise,
`BaseException` included: the raised value's `fromExceptionClass` field
decides whether the `except Exception` clause of the code branch catches
it or lets it escape the tick. -/
structure ExecResult where
  stdoutText : String
  stderrText : String
  newState : HostState
  raised : Option PyExn

/-- The Python execution semantics the code branch of the tick invokes:
an oracle from source text and current host state to an `ExecResult`.
Submitted source is unrestricted, so the oracle ranges over completing
executions, `Exception`-class raises and uncatchable `BaseException`
raises alike. -/
structure CodeEnv where
  exec : String → HostState → ExecResult

/-- One step of the render pipeline that the `view` branch of the tick
performs, in program order. -/
inductive RenderAction where
  | removeStaleFile
  | setFileFormatPNG
  | setFilepath
  | setEngine (engine : String)
  | renderInvoke
  deriving Repr, DecidableEq

/-- What `bpy.ops.render.render(write_still=True)` does in the current
environment: raise, write the expected output file with given bytes, or
return without producing the file. -/
inductive RenderBehavior where
  | raises (e : PyExn)
  | writesFile (bytes : String)
  | producesNothing
  deriving Repr, DecidableEq

/-- Environment of the `view` branch: scene and filesystem facts it reads. -/
structure ViewEnv where
  staleFileExists : Bool
  hasCamera : Bool
  hasEeveeNext : Bool
  render : RenderBehavior
  b64encode : String → String

/-- The `'code'` branch of `process_queue` (engine.py lines 38-66):
redirect stdout/stderr, `exec` the content, and on completion put
`{"status":"success","output": captured stdout}` on the response queue
(then echo the output to the real stdout); on a raised `Exception` put
`{"status":"error","message": traceback.format_exc()}`.  A raise whose
type is not `Exception`-class (e.g. `SystemExit`) does not match
`except Exception`: no result is put and the raise leaves the branch
(only the `finally` restoring the streams runs).  Returns the new host
state, the list of results put on this task's response queue, the text
written to the real (un-redirected) stdout, and the escaping raise if
the clause did not catch it. -/
def dispatchCode (cenv : CodeEnv) (st : HostState) (content : String) :
    HostState × List Result × String × Option PyExn :=
  let er := cenv.exec content st
  match er.raised with
  | none => (er.newState, [Result.success er.stdoutText], er.stdoutText, none)
  | some e =>
      if e.fromExceptionClass then
        (er.newState, [Result.error (formatExc e)], "", none)
      else
        (er.newState, [], "", some e)

/-- The `'view'` branch of `process_queue` (engine.py lines 68-102):
remove the stale output file if present, then check for a camera; if
none, put the no-camera error and stop.  Otherwise set the PNG file
format, the filepath, pick EEVEE-NEXT when available else EEVEE, render,
and put the base64 image on success, the file-not-found error if the
render produced no file; any exception in the branch is caught and put
as `{"status":"error","message": str(e)}`.  Returns the list of results
put on the task's response queue and the render-pipeline action trace. -/
def dispatchView (venv : ViewEnv) : List Result × List RenderAction :=
  let acts0 : List RenderAction :=
    if venv.staleFileExists then [.removeStaleFile] else []
  if !venv.hasCamera then
    ([Result.error "No camera found. Please create a camera."], acts0)
  else
    let eng := if venv.hasEeveeNext then "BLENDER_EEVEE_NEXT" else "BLENDER_EEVEE"
    let acts1 := acts0 ++ [.setFileFormatPNG, .setFilepath, .setEngine eng, .renderInvoke]
    match venv.render with
    | .raises e => ([Result.error e.msg], acts1)
    | .writesFile bytes => ([Result.image (venv.b64encode bytes)], acts1)
    | .producesNothing => ([Result.error "Render finished but file not found."], acts1)

/-- The kind (and payload) of a task on the execution queue. -/
inductive TaskKind where
  | code (content : String)
  | view
  deriving Repr, DecidableEq

/-- Dispatch of one dequeued task by the tick: the new host state, the
results put on that task's response queue, its render-action trace
(empty for code tasks), and the raise escaping the dispatch, when the
code branch hit one that `except Exception` does not catch (the view
branch's `except Exception` is only ever reached by library calls, whose
failures are `Exception`-class, so it never escapes). -/
def runTask (cenv : CodeEnv) (venv : ViewEnv) (st : HostState) :
    TaskKind → HostState × List Result × List RenderAction × Option PyExn
  | .code c =>
      let r := dispatchCode cenv st c
      (r.1, r.2.1, [], r.2.2.2)
  | .view =>
      let r := dispatchView venv
      (st, r.1, r.2, none)

/-- One tick of `process_queue`: drain the queued tasks in FIFO order,
dispatching each one fully before the next; returns the final host
state, for each dequeued task in order the list of results put on that
task's response queue, and the raise that escaped the loop, if one did —
in that case the loop aborts: the task it was handling keeps its (empty)
write list, and the remaining tasks are not dequeued this tick. -/
def processQueue (cenv : CodeEnv) (venv : ViewEnv) :
    HostState → List TaskKind → HostState × List (List Result) × Option PyExn
  | st, [] => (st, [], none)
  | st, t :: ts =>
      let r := runTask cenv venv st t
      match r.2.2.2 with
      | some e => (r.1, [r.2.1], some e)
      | none =>
          let rest := processQueue cenv venv r.1 ts
          (rest.1, r.2.1 :: rest.2.1, rest.2.2)

/-- Python `queue.Queue(maxsize)`: `maxsize = 0` means unbounded.  Both
`execution_queue = queue.Queue()` (engine.py) and `res_q = queue.Queue()`
(server.py `do_POST`) are created with the default `maxsize = 0`. -/
structure PyQueue where
  maxsize : Nat
  items : List Result
  deriving Repr, DecidableEq

/-- Outcome of `queue.Queue.put(item)` (default `block=True`): the put
blocks exactly when the queue is bounded and already full; otherwise the
item is appended and the call returns at once. -/
inductive PutOutcome where
  | ok (q : PyQueue)
  | blocked
  deriving Repr, DecidableEq

/-- `queue.Queue.put` with the default blocking semantics. -/
def PyQueue.put (q : PyQueue) (r : Result) : PutOutcome :=
  if q.maxsize ≠ 0 ∧ q.maxsize ≤ q.items.length then .blocked
  else .ok ⟨q.maxsize, q.items ++ [r]⟩

/-- The JSON body of a POST request, as `do_POST` reads it:
`data.get('code', '')` is the only field consulted. -/
structure ReqData where
  code : Option String
  deriving Repr, DecidableEq

/-- Outcome of `res_q.get(timeout=30)` on the network thread: either a
result arrived in time or `queue.Empty` was raised. -/
inductive WaitOutcome where
  | got (r : Result)
  | timedOut
  deriving Repr, DecidableEq

/-- An HTTP response: status code and JSON body (a Result dict). -/
structure HttpResponse where
  statusCode : Nat
  body : Result
  deriving Repr, DecidableEq

/-- `AgentRequestHandler.do_POST` (server.py lines 18-51, duplicated in
`__init__.py`): route on the path; for `/run` build a code task from
`data.get('code','')`, enqueue it, wait on the fresh response queue with
a 30 s bound, and answer 200 on a success result, 500 on an error result,
or 504 `"Code execution timed out"` on timeout; for `/view` enqueue a
view task and answer 200 with whatever result arrives, or 504
`"Render timed out"`; any other path answers 404 `"Not found"`.
Returns the response sent and the tasks enqueued on the execution
queue. -/
def doPost (path : String) (d : ReqData) (w : WaitOutcome) :
    HttpResponse × List TaskKind :=
  if path = "/run" then
    let t := TaskKind.code (d.code.getD "")
    match w with
    | .got r =>
        (⟨if r.statusStr = "success" then 200 else 500, r⟩, [t])
    | .timedOut => (⟨504, .error "Code execution timed out"⟩, [t])
  else if path = "/view" then
    match w with
    | .got r => (⟨200, r⟩, [TaskKind.view])
    | .timedOut => (⟨504, .error "Render timed out"⟩, [TaskKind.view])
  else
    (⟨404, .error "Not found"⟩, [])

/-- End-to-end `/run` round trip in which the tick runs before the 30 s
bound elapses: the listener builds the task from `data.get('code','')`,
the tick dispatches it, and the listener consumes the first result put
on the task's response queue (timing out only if none was put). -/
def handleRunInTime (cenv : CodeEnv) (venv : ViewEnv) (st : HostState)
    (d : ReqData) : HttpResponse × TaskKind :=
  let t := TaskKind.code (d.code.getD "")
  let ws := (runTask cenv venv st t).2.1
  match ws.head? with
  | some r => ((doPost "/run" d (.got r)).1, t)
  | none => ((doPost "/run" d .timedOut).1, t)

/-- Process-wide lifecycle state: module globals `httpd` (listener bound
or `None`) and the Blender timer registration of `process_queue`, plus
counters of how many listeners / timer registrations are currently
active (each successful bind or register increments, each close or
unregister decrements). -/
structure BridgeState where
  httpdBound : Bool
  activeListeners : Nat
  timerRegistered : Bool
  activeTimers : Nat
  deriving Repr, DecidableEq

/-- `start_server` (server.py lines 60-72): `if httpd: return`; otherwise
try to bind (`bindOk` says whether the bind succeeds; on `OSError` the
global stays `None`). -/
def start_server (bindOk : Bool) (s : BridgeState) : BridgeState :=
  if s.httpdBound then s
  else if bindOk then
    { s with httpdBound := true, activeListeners := s.activeListeners + 1 }
  else s

/-- `stop_server` (server.py lines 75-81): `if httpd:` shutdown, close
and clear the global; a no-op when not running. -/
def stop_server (s : BridgeState) : BridgeState :=
  if s.httpdBound then
    { s with httpdBound := false, activeListeners := s.activeListeners - 1 }
  else s

/-- `bpy.app.timers.register(process_queue)` guarded by
`if not bpy.app.timers.is_registered(process_queue)` (operators.py). -/
def registerTick (s : BridgeState) : BridgeState :=
  if s.timerRegistered then s
  else { s with timerRegistered := true, activeTimers := s.activeTimers + 1 }

/-- `bpy.app.timers.unregister(process_queue)` guarded by
`if bpy.app.timers.is_registered(process_queue)` (operators.py). -/
def unregisterTick (s : BridgeState) : BridgeState :=
  if s.timerRegistered then
    { s with timerRegistered := false, activeTimers := s.activeTimers - 1 }
  else s

/-- `OBJECT_OT_StartServer.execute` (operators.py lines 13-19):
`start_server()` then register the tick timer if not yet registered. -/
def startOp (bindOk : Bool) (s : BridgeState) : BridgeState :=
  registerTick (start_server bindOk s)

/-- `OBJECT_OT_StopServer.execute` (operators.py lines 25-30):
`stop_server()` then unregister the tick timer if registered. -/
def stopOp (s : BridgeState) : BridgeState :=
  unregisterTick (stop_server s)

/-- The lifecycle state before any start: no listener, no timer. -/
def initialBridge : BridgeState := ⟨false, 0, false, 0⟩

/-- Execution oracle that always completes, writing `out` to stdout and
leaving the host state unchanged. -/
def constExecEnv (out : String) : CodeEnv :=
  ⟨fun _ s => ⟨out, "", s, none⟩⟩

/-- Execution oracle where every source text appends itself as a marker
to the host state and writes nothing. -/
def markerExecEnv : CodeEnv :=
  ⟨fun c s => ⟨"", "", s ++ [c], none⟩⟩

/-- Execution oracle that always raises `e`. -/
def raiseExecEnv (e : PyExn) : CodeEnv :=
  ⟨fun _ s => ⟨"", "", s, some e⟩⟩

/-- The `SystemExit` raised by `sys.exit()` in submitted code: a
`BaseException` that is not `Exception`-class. -/
def sysExitExn : PyExn := ⟨"SystemExit", "None", "  frame\n", false⟩

/-- A view environment with a camera, no stale file, EEVEE-NEXT
available, and a render that writes the file. -/
def quietView : ViewEnv := ⟨false, true, true, .writesFile "PNGDATA", id⟩

/-- A view environment with a stale output file on disk and no camera in
the scene. -/
def noCamStaleView : ViewEnv := ⟨true, false, true, .writesFile "PNGDATA", id⟩

/-- Helper: each branch of the code dispatch leaves the host state the
`exec` oracle produced (partial side effects stand even when a raise
escapes). -/
theorem dispatchCode_state (cenv : CodeEnv) (st : HostState) (c : String) :
    (dispatchCode cenv st c).1 = (cenv.exec c st).newState := by
  cases h : (cenv.exec c st).raised with
  | none => simp [dispatchCode, h]
  | some e => cases he : e.fromExceptionClass <;> simp [dispatchCode, h, he]

/-- Helper: the code dispatch lets no raise escape exactly when every
raise of this execution is `Exception`-class. -/
theorem dispatchCode_no_escape (cenv : CodeEnv) (st : HostState)
    (c : String)
    (h : ∀ e, (cenv.exec c st).raised = some e → e.fromExceptionClass = true) :
    (dispatchCode cenv st c).2.2.2 = none := by
  cases hr : (cenv.exec c st).raised with
  | none => simp [dispatchCode, hr]
  | some e => simp [dispatchCode, hr, h e hr]

/-- Helper: a dispatched task out of which no raise escapes puts exactly
one result on its response queue, whichever control path it takes. -/
theorem runTask_writes_one (cenv : CodeEnv) (venv : ViewEnv)
    (st : HostState) (t : TaskKind)
    (hesc : (runTask cenv venv st t).2.2.2 = none) :
    ((runTask cenv venv st t).2.1).length = 1 := by
  cases t with
  | code c =>
      cases h : (cenv.exec c st).raised with
      | none => simp [runTask, dispatchCode, h]
      | some e =>
          cases he : e.fromExceptionClass with
          | true => simp [runTask, dispatchCode, h, he]
          | false => simp [runTask, dispatchCode, h, he] at hesc
  | view =>
      rcases venv with ⟨sf, cam, eev, rend, enc⟩
      cases cam <;> cases rend <;> simp [runTask, dispatchView]

/-- Counterexample to claim C1 as stated: submitted code may raise a
`BaseException` that is not `Exception`-class — `sys.exit()` raises
`SystemExit` — and `except Exception` (engine.py line 59) does not match
it.  At this concrete tick the dequeued code task receives zero results
on its response channel and the raise propagates out of the tick,
aborting the drain loop before the second queued task is dequeued. -/
theorem tick_zero_results_escape_cex :
    (processQueue (raiseExecEnv sysExitExn) quietView []
        [TaskKind.code "import sys; sys.exit()", TaskKind.view]).2.1
      = [[]]
    ∧ (processQueue (raiseExecEnv sysExitExn) quietView []
        [TaskKind.code "import sys; sys.exit()", TaskKind.view]).2.2
      = some sysExitExn := by
  exact ⟨rfl, rfl⟩

/-- Claim C1 amended: for every Task dequeued by a tick, provided every
failure the executions raise is `Exception`-class (the class
`except Exception` catches — every ordinary error), the dispatch writes
exactly one Result to that Task's response channel and no failure
propagates out of the tick; a bare `BaseException` such as the
`SystemExit` of `sys.exit()` instead escapes the tick, and the Task
being handled receives no Result. -/
theorem tick_writes_exactly_one_result_amended (cenv : CodeEnv)
    (venv : ViewEnv) (st : HostState) (ts : List TaskKind)
    (hcatch : ∀ c s e, (cenv.exec c s).raised = some e →
      e.fromExceptionClass = true) :
    (processQueue cenv venv st ts).2.2 = none
    ∧ ∀ ws ∈ (processQueue cenv venv st ts).2.1, ws.length = 1 := by
  induction ts generalizing st with
  | nil => exact ⟨rfl, by simp [processQueue]⟩
  | cons t rest ih =>
      have hesc : (runTask cenv venv st t).2.2.2 = none := by
        cases t with
        | code c => simpa [runTask] using
            dispatchCode_no_escape cenv st c (hcatch c st)
        | view => rfl
      constructor
      · simp only [processQueue, hesc]
        exact (ih _).1
      · intro ws h
        simp only [processQueue, hesc, List.mem_cons] at h
        rcases h with h | h
        · rw [h]; exact runTask_writes_one cenv venv st t hesc
        · exact (ih _).2 ws h

/-- Witness for C1 (amended) at a concrete tick: an oracle raising only
an `Exception`-class error, one code task and one view task, no escape
and every write list a singleton. -/
theorem tick_writes_exactly_one_result_amended_witness :
    (∀ c s e,
      ((raiseExecEnv ⟨"ValueError", "v", "  f\n", true⟩).exec c s).raised
          = some e → e.fromExceptionClass = true)
    ∧ (processQueue (raiseExecEnv ⟨"ValueError", "v", "  f\n", true⟩)
        quietView [] [TaskKind.code "x", TaskKind.view]).2.2 = none
    ∧ ∀ ws ∈ (processQueue (raiseExecEnv ⟨"ValueError", "v", "  f\n", true⟩)
        quietView [] [TaskKind.code "x", TaskKind.view]).2.1,
        ws.length = 1 := by
  have hc : ∀ c s e,
      ((raiseExecEnv ⟨"ValueError", "v", "  f\n", true⟩).exec c s).raised
        = some e → e.fromExceptionClass = true := by
    intro c s e he
    cases he
    rfl
  have h := tick_writes_exactly_one_result_amended
    (raiseExecEnv ⟨"ValueError", "v", "  f\n", true⟩) quietView []
    [TaskKind.code "x", TaskKind.view] hc
  exact ⟨hc, h.1, h.2⟩

/-- Claim C2: for every submitted source text whose execution completes
without raising, the result put on the response queue has status success
and its `output` field is exactly the text the code wrote to the
(captured) standard output stream — the stderr capture is discarded and
never appears in the payload. -/
theorem code_success_output_exact (cenv : CodeEnv) (st : HostState)
    (c : String) (h : (cenv.exec c st).raised = none) :
    (dispatchCode cenv st c).2.1 =
      [Result.success (cenv.exec c st).stdoutText] := by
  simp [dispatchCode, h]

/-- Witness for C2: `print(1+1)` under an oracle that writes `2\n` to
stdout (and noise to stderr, which does not appear in the result). -/
theorem code_success_output_exact_witness :
    ((CodeEnv.mk fun _ s => ⟨"2\n", "noise", s, none⟩).exec
        "print(1+1)" []).raised = none
    ∧ (dispatchCode (CodeEnv.mk fun _ s => ⟨"2\n", "noise", s, none⟩)
        [] "print(1+1)").2.1 = [Result.success "2\n"] := by
  refine ⟨rfl, ?_⟩
  have h := code_success_output_exact
    (CodeEnv.mk fun _ s => ⟨"2\n", "noise", s, none⟩) [] "print(1+1)" rfl
  simpa using h

/-- Claim C6: two tasks enqueued in order A then B before the drain are
executed in that order: A runs to completion (its state effect applied,
any raise being an ordinary caught error) before B starts, so the final
host state carries the marker of A before the marker of B. -/
theorem producer_order_preserved (cenv : CodeEnv) (venv : ViewEnv)
    (st : HostState) (a b ma mb : String)
    (ha : ∀ s, (cenv.exec a s).newState = s ++ [ma])
    (hb : ∀ s, (cenv.exec b s).newState = s ++ [mb])
    (hca : ∀ s e, (cenv.exec a s).raised = some e →
      e.fromExceptionClass = true)
    (hcb : ∀ s e, (cenv.exec b s).raised = some e →
      e.fromExceptionClass = true) :
    (processQueue cenv venv st [TaskKind.code a, TaskKind.code b]).1 =
      st ++ [ma, mb] := by
  have ea : (runTask cenv venv st (TaskKind.code a)).2.2.2 = none := by
    simpa [runTask] using dispatchCode_no_escape cenv st a (hca st)
  have sa : (runTask cenv venv st (TaskKind.code a)).1 = st ++ [ma] := by
    simpa [runTask] using dispatchCode_state cenv st a |>.trans (ha st)
  have eb : (runTask cenv venv (st ++ [ma]) (TaskKind.code b)).2.2.2
      = none := by
    simpa [runTask] using dispatchCode_no_escape cenv (st ++ [ma]) b
      (hcb (st ++ [ma]))
  have sb : (runTask cenv venv (st ++ [ma]) (TaskKind.code b)).1
      = st ++ [ma, mb] := by
    have := dispatchCode_state cenv (st ++ [ma]) b |>.trans (hb (st ++ [ma]))
    simpa [runTask, List.append_assoc] using this
  simp only [processQueue, ea, sa, eb, sb]

/-- Witness for C6: the marker oracle appends each submitted text to the
host state and never raises; draining [A, B] from an empty state yields
[A, B]. -/
theorem producer_order_preserved_witness :
    (∀ s, (markerExecEnv.exec "A" s).newState = s ++ ["A"])
    ∧ (∀ s, (markerExecEnv.exec "B" s).newState = s ++ ["B"])
    ∧ (processQueue markerExecEnv quietView []
        [TaskKind.code "A", TaskKind.code "B"]).1 = ["A", "B"] := by
  refine ⟨fun s => rfl, fun s => rfl, ?_⟩
  exact producer_order_preserved markerExecEnv quietView [] "A" "B" "A" "B"
    (fun s => rfl) (fun s => rfl)
    (fun s e h => by cases h) (fun s e h => by cases h)

/-- Counterexample to claim C3 as stated: with a stale output file on
disk and no camera in the scene, the view branch does return the
no-camera error result, but it has already performed a render-pipeline
step — it removed the stale output file before checking for a camera
(engine.py removes at lines 72-74, checks the camera at line 76). -/
theorem view_no_camera_clears_stale_cex :
    (dispatchView noCamStaleView).1 =
      [Result.error "No camera found. Please create a camera."]
    ∧ (dispatchView noCamStaleView).2 = [RenderAction.removeStaleFile]
    ∧ ¬ (dispatchView noCamStaleView).2 = [] := by
  refine ⟨rfl, rfl, by decide⟩

/-- Claim C3 amended: when no active camera exists, the handler returns
exactly one error result carrying the no-camera message and performs no
render-pipeline step beyond the stale-file removal that precedes the
camera check — it never configures the file format, the filepath or the
engine and never invokes the render. -/
theorem view_no_camera_amended (venv : ViewEnv)
    (h : venv.hasCamera = false) :
    (dispatchView venv).1 =
      [Result.error "No camera found. Please create a camera."]
    ∧ (dispatchView venv).2 =
        (if venv.staleFileExists then [RenderAction.removeStaleFile] else [])
    ∧ RenderAction.setFileFormatPNG ∉ (dispatchView venv).2
    ∧ RenderAction.setFilepath ∉ (dispatchView venv).2
    ∧ (∀ eng, RenderAction.setEngine eng ∉ (dispatchView venv).2)
    ∧ RenderAction.renderInvoke ∉ (dispatchView venv).2 := by
  cases hs : venv.staleFileExists <;> simp [dispatchView, h, hs]

/-- Witness for C3 (amended) at the concrete no-camera environment. -/
theorem view_no_camera_amended_witness :
    noCamStaleView.hasCamera = false
    ∧ (dispatchView noCamStaleView).1 =
        [Result.error "No camera found. Please create a camera."]
    ∧ RenderAction.renderInvoke ∉ (dispatchView noCamStaleView).2 := by
  refine ⟨rfl, ?_, ?_⟩
  · exact (view_no_camera_amended noCamStaleView rfl).1
  · exact (view_no_camera_amended noCamStaleView rfl).2.2.2.2.2

/-- Claim C4: for every submitted source text whose execution raises an
error (an `Exception`-class raise, the ones `except Exception` catches),
the result has status error, its message is `traceback.format_exc()` —
which contains the traceback header, the raised error type name and the
error text — and the listener maps that error result to a 500 HTTP
response. -/
theorem code_error_traceback_and_500 (cenv : CodeEnv) (st : HostState)
    (c : String) (d : ReqData) (e : PyExn)
    (h : (cenv.exec c st).raised = some e)
    (he : e.fromExceptionClass = true) :
    (dispatchCode cenv st c).2.1 = [Result.error (formatExc e)]
    ∧ ContainsStr (formatExc e) "Traceback (most recent call last):\n"
    ∧ ContainsStr (formatExc e) e.typeName
    ∧ ContainsStr (formatExc e) e.msg
    ∧ (doPost "/run" d (.got (Result.error (formatExc e)))).1.statusCode
        = 500 := by
  refine ⟨by simp [dispatchCode, h, he], ?_, ?_, ?_, ?_⟩
  · exact ⟨"", e.traceLines ++ e.typeName ++ ": " ++ e.msg ++ "\n",
      by simp [formatExc, String.append_assoc]⟩
  · exact ⟨"Traceback (most recent call last):\n" ++ e.traceLines,
      ": " ++ e.msg ++ "\n", by simp [formatExc, String.append_assoc]⟩
  · exact ⟨"Traceback (most recent call last):\n" ++ e.traceLines
        ++ e.typeName ++ ": ", "\n",
      by simp [formatExc, String.append_assoc]⟩
  · simp [doPost, Result.statusStr]

/-- Witness for C4: an oracle raising ValueError (an `Exception`-class
error) with text x; the error dict carries the full traceback and the
listener answers 500. -/
theorem code_error_traceback_and_500_witness :
    ((raiseExecEnv ⟨"ValueError", "x", "  frame\n", true⟩).exec
        "boom" []).raised
        = some ⟨"ValueError", "x", "  frame\n", true⟩
    ∧ (PyExn.mk "ValueError" "x" "  frame\n" true).fromExceptionClass = true
    ∧ (dispatchCode (raiseExecEnv ⟨"ValueError", "x", "  frame\n", true⟩) []
        "boom").2.1
        = [Result.error (formatExc ⟨"ValueError", "x", "  frame\n", true⟩)]
    ∧ (doPost "/run" ⟨some "boom"⟩
        (.got (Result.error
          (formatExc ⟨"ValueError", "x", "  frame\n", true⟩)))).1.statusCode
        = 500 := by
  refine ⟨rfl, rfl, ?_, ?_⟩
  · exact (code_error_traceback_and_500
      (raiseExecEnv ⟨"ValueError", "x", "  frame\n", true⟩) [] "boom"
      ⟨some "boom"⟩ ⟨"ValueError", "x", "  frame\n", true⟩ rfl rfl).1
  · exact (code_error_traceback_and_500
      (raiseExecEnv ⟨"ValueError", "x", "  frame\n", true⟩) [] "boom"
      ⟨some "boom"⟩ ⟨"ValueError", "x", "  frame\n", true⟩ rfl rfl).2.2.2.2

/-- Claim C5: a put on a response channel (an unbounded `queue.Queue`)
never blocks and never raises, whatever already sits in the channel and
whether or not a reader remains; and a late write after the caller timed
out changes nothing for the caller — the 504 response the listener
already computed is a fixed value that does not depend on the late
result. -/
theorem response_channel_put_never_blocks (q : PyQueue) (r : Result)
    (h : q.maxsize = 0) :
    q.put r = .ok ⟨0, q.items ++ [r]⟩
    ∧ (∀ d : ReqData,
        (doPost "/run" d .timedOut).1 =
          ⟨504, Result.error "Code execution timed out"⟩) := by
  constructor
  · rcases q with ⟨m, items⟩
    subst h
    simp [PyQueue.put]
  · intro d; rfl

/-- Witness for C5 at a concrete channel already holding a value and
receiving a second, late write. -/
theorem response_channel_put_never_blocks_witness :
    (PyQueue.mk 0 [Result.success "early"]).maxsize = 0
    ∧ (PyQueue.mk 0 [Result.success "early"]).put (Result.error "late")
        = .ok ⟨0, [Result.success "early", Result.error "late"]⟩ := by
  refine ⟨rfl, ?_⟩
  have h := response_channel_put_never_blocks
    (PyQueue.mk 0 [Result.success "early"]) (Result.error "late") rfl
  simpa using h.1

/-- Counterexample to claim C7 as stated: on a `/run` timeout the body
the listener sends is `{"status":"error","message":"Code execution timed
out"}`, not the claimed `{"status":"error","message":"timed out"}`. -/
theorem run_timeout_message_cex :
    (doPost "/run" ⟨some "x"⟩ .timedOut).1.body ≠ Result.error "timed out"
    ∧ (doPost "/run" ⟨some "x"⟩ .timedOut).1 =
        ⟨504, Result.error "Code execution timed out"⟩ := by
  exact ⟨by decide, rfl⟩

/-- Claim C7 amended: when the result does not arrive within the bound,
the listener answers 504 with status error and a message that contains
"timed out" — `"Code execution timed out"` on `/run` and
`"Render timed out"` on `/view`.  The task stays enqueued (it is not
cancelled), and the late result write merely lands in the abandoned
unbounded channel: the put succeeds and the already-sent 504 response is
a fixed value that does not mention it. -/
theorem timeout_504_amended (d : ReqData) (q : PyQueue) (r : Result)
    (h : q.maxsize = 0) :
    (doPost "/run" d .timedOut).1 =
      ⟨504, Result.error "Code execution timed out"⟩
    ∧ ContainsStr "Code execution timed out" "timed out"
    ∧ (doPost "/view" d .timedOut).1 = ⟨504, Result.error "Render timed out"⟩
    ∧ ContainsStr "Render timed out" "timed out"
    ∧ (doPost "/run" d .timedOut).2 = [TaskKind.code (d.code.getD "")]
    ∧ q.put r = .ok ⟨0, q.items ++ [r]⟩ := by
  refine ⟨rfl, ⟨"Code execution ", "", by decide⟩, rfl,
    ⟨"Render ", "", by decide⟩, rfl, ?_⟩
  rcases q with ⟨m, items⟩
  subst h
  simp [PyQueue.put]

/-- Witness for C7 (amended) at a concrete request and channel. -/
theorem timeout_504_amended_witness :
    (PyQueue.mk 0 []).maxsize = 0
    ∧ (doPost "/run" ⟨some "y"⟩ .timedOut).1 =
        ⟨504, Result.error "Code execution timed out"⟩
    ∧ (PyQueue.mk 0 []).put (Result.success "late")
        = .ok ⟨0, [Result.success "late"]⟩ := by
  refine ⟨rfl, ?_, ?_⟩
  · exact (timeout_504_amended ⟨some "y"⟩ (PyQueue.mk 0 [])
      (Result.success "late") rfl).1
  · have h := (timeout_504_amended ⟨some "y"⟩ (PyQueue.mk 0 [])
      (Result.success "late") rfl).2.2.2.2.2
    simpa using h

/-- Counterexample to claim C8 as stated: the 404 body the listener
sends for an unknown path carries the message `"Not found"` (capital N),
not the claimed `"not found"`. -/
theorem unknown_path_message_cex :
    (doPost "/nonexistent-route" ⟨none⟩ .timedOut).1.body
      ≠ Result.error "not found"
    ∧ (doPost "/nonexistent-route" ⟨none⟩ .timedOut).1 =
        ⟨404, Result.error "Not found"⟩ := by
  exact ⟨by decide, rfl⟩

/-- Claim C8 amended: every POST to a path other than `/run` and `/view`
is answered 404 with body `{"status":"error","message":"Not found"}`,
and no task is enqueued for it. -/
theorem unknown_path_404_amended (path : String) (d : ReqData)
    (w : WaitOutcome) (h1 : path ≠ "/run") (h2 : path ≠ "/view") :
    doPost path d w = (⟨404, Result.error "Not found"⟩, []) := by
  simp [doPost, h1, h2]

/-- Witness for C8 (amended) at the concrete path of the spec scenario. -/
theorem unknown_path_404_amended_witness :
    ("/nonexistent-route" : String) ≠ "/run"
    ∧ ("/nonexistent-route" : String) ≠ "/view"
    ∧ doPost "/nonexistent-route" ⟨none⟩ (.got (Result.success ""))
        = (⟨404, Result.error "Not found"⟩, []) := by
  refine ⟨by decide, by decide, ?_⟩
  exact unknown_path_404_amended "/nonexistent-route" ⟨none⟩
    (.got (Result.success "")) (by decide) (by decide)

/-- Claim C9: start is idempotent — a second start from any state
changes nothing, and two starts from the initial state leave exactly one
bound listener and one tick registration — and stop is idempotent — a
second stop changes nothing, and stop from the initial (not running)
state is a no-op. -/
theorem start_stop_idempotent (s : BridgeState) (bindOk : Bool) :
    startOp bindOk (startOp bindOk s) = startOp bindOk s
    ∧ stopOp (stopOp s) = stopOp s
    ∧ (startOp true (startOp true initialBridge)).activeListeners = 1
    ∧ (startOp true (startOp true initialBridge)).activeTimers = 1
    ∧ stopOp initialBridge = initialBridge := by
  rcases s with ⟨hb, al, tr, tc⟩
  refine ⟨?_, ?_, rfl, rfl, rfl⟩
  · cases hb <;> cases tr <;> cases bindOk <;>
      simp [startOp, start_server, registerTick]
  · cases hb <;> cases tr <;>
      simp [stopOp, stop_server, unregisterTick]

/-- Claim C10: a `/run` request whose JSON body lacks the `code` key is
handled with `data.get('code','')`: the enqueued task carries the empty
source text, and (running the tick in time, with empty source executing
to completion with empty stdout) the response is 200 with status success
and empty output — not an error. -/
theorem missing_code_key_empty_success (cenv : CodeEnv) (venv : ViewEnv)
    (st : HostState) (d : ReqData) (hd : d.code = none)
    (h1 : (cenv.exec "" st).raised = none)
    (h2 : (cenv.exec "" st).stdoutText = "") :
    handleRunInTime cenv venv st d =
      (⟨200, Result.success ""⟩, TaskKind.code "") := by
  simp [handleRunInTime, runTask, dispatchCode, doPost, hd, h1, h2,
    Result.statusStr]

/-- Witness for C10: an oracle under which empty source completes with
empty stdout, and a request body with no code field. -/
theorem missing_code_key_empty_success_witness :
    (ReqData.mk none).code = none
    ∧ ((constExecEnv "").exec "" []).raised = none
    ∧ ((constExecEnv "").exec "" []).stdoutText = ""
    ∧ handleRunInTime (constExecEnv "") quietView [] ⟨none⟩
        = (⟨200, Result.success ""⟩, TaskKind.code "") := by
  refine ⟨rfl, rfl, rfl, ?_⟩
  exact missing_code_key_empty_success (constExecEnv "") quietView [] ⟨none⟩
    rfl rfl rfl

end BlenderGeminiAgent
